import Mathlib

/-!
Verification of the cascading filter-and-aggregation pipeline of the
climatescope weather dashboard.

The definitions below are a shallow embedding of the Python source under
src/01_weather_dashboard.  A pandas DataFrame is modelled as a Lean list of
rows; nullable (NaN-able) numeric cells are modelled as Option values, and a
pandas comparison such as df[c] <= v, which is False on NaN, is modelled by an
Option-aware boolean test that is false on none.  The pycountry_convert
library is an external collaborator; its lookup functions, which raise on
unknown input, are modelled as abstract parameters of type String → Option
String (none = raised exception).
-/

namespace Climatescope

/-- A parsed last_updated timestamp, reduced to the three date components the
dashboard pages extract with dt.year / dt.month / dt.day. -/
structure Timestamp where
  year : Int
  month : Int
  day : Int
deriving DecidableEq, Repr

/-- One row of the loaded dataset (an Observation), restricted to the columns
the claims are about.  A nullable numeric column is an Option ℚ; a row whose
last_updated failed to parse has last_updated = none. -/
structure Row where
  continent : String
  country : String
  location_name : String
  temperature_celsius : Option ℚ
  humidity : Option ℚ
  wind_mph : Option ℚ
  air_quality_us_epa_index : Option ℚ
  air_quality_PM2_5 : Option ℚ
  air_quality_PM10 : Option ℚ
  last_updated : Option Timestamp
deriving DecidableEq, Repr

/-- Pandas semantics of df[col] <= v : a NaN (none) cell compares False. -/
def optLe (v : Option ℚ) (b : ℚ) : Bool :=
  match v with
  | none => false
  | some x => decide (x ≤ b)

/-- Pandas semantics of df[col] >= v : a NaN (none) cell compares False. -/
def optGe (v : Option ℚ) (b : ℚ) : Bool :=
  match v with
  | none => false
  | some x => decide (b ≤ x)

/-- Pandas semantics of df[col].isin(xs) on an integer column derived from a
timestamp: a NaN cell is in no set. -/
def optMemZ (xs : List Int) (v : Option Int) : Bool :=
  match v with
  | none => false
  | some x => xs.contains x

/-- Pandas semantics of df[col].isin(xs) on a string column that may be NaN. -/
def optMemS (xs : List String) (v : Option String) : Bool :=
  match v with
  | none => false
  | some x => xs.contains x

/-- The Year column: df[last_updated].dt.year (NaN for an unparsed date). -/
def yearCol (r : Row) : Option Int := r.last_updated.map Timestamp.year

/-- The Month column as a number: df[last_updated].dt.month. -/
def monthCol (r : Row) : Option Int := r.last_updated.map Timestamp.month

/-- The Day column: df[last_updated].dt.day. -/
def dayCol (r : Row) : Option Int := r.last_updated.map Timestamp.day

/-- The user-chosen constraints of pages/3_AirQuality_Insights.py: the
geographic hierarchy, the max AQI slider, and the PM2.5 / PM10 range
sliders. -/
structure FilterSpec where
  continents : List String
  countries : List String
  locations : List String
  max_aqi : ℚ
  pm2_5_min : ℚ
  pm2_5_max : ℚ
  pm10_min : ℚ
  pm10_max : ℚ

/-- df_filtered of pages/3_AirQuality_Insights.py lines 134-141: the
conjunction of continent/country/location membership, the AQI upper bound and
the two inclusive PM ranges, row by row. -/
def df_filtered (s : FilterSpec) (df : List Row) : List Row :=
  df.filter (fun r =>
    s.continents.contains r.continent &&
    s.countries.contains r.country &&
    s.locations.contains r.location_name &&
    optLe r.air_quality_us_epa_index s.max_aqi &&
    optGe r.air_quality_PM2_5 s.pm2_5_min && optLe r.air_quality_PM2_5 s.pm2_5_max &&
    optGe r.air_quality_PM10 s.pm10_min && optLe r.air_quality_PM10 s.pm10_max)

/-- A concrete sample row used to instantiate the universally quantified
theorems at a computable input. -/
def rowDelhi : Row :=
  { continent := "Asia"
    country := "India"
    location_name := "Delhi"
    temperature_celsius := some 25
    humidity := some 60
    wind_mph := some 5
    air_quality_us_epa_index := some 2
    air_quality_PM2_5 := some 10
    air_quality_PM10 := some 20
    last_updated := some ⟨2024, 5, 1⟩ }

/-- A concrete sample FilterSpec matching rowDelhi. -/
def specAsia : FilterSpec :=
  { continents := ["Asia"]
    countries := ["India"]
    locations := ["Delhi"]
    max_aqi := 6
    pm2_5_min := 0
    pm2_5_max := 100
    pm10_min := 0
    pm10_max := 100 }

/-- Claim C1: for every FilterSpec and input table, the filtered subset of the
Cascading Filter Engine contains only rows of the input (no row fabricated),
and every returned row satisfies every active predicate: its continent,
country and location_name are members of the chosen sets, each PM range holds
inclusively on both ends on a non-null value, and its air quality US EPA index
is non-null and at most max_aqi. -/
theorem df_filtered_sound (s : FilterSpec) (df : List Row) :
    (df_filtered s df).Sublist df ∧
    ∀ r ∈ df_filtered s df,
      r.continent ∈ s.continents ∧
      r.country ∈ s.countries ∧
      r.location_name ∈ s.locations ∧
      (∃ x, r.air_quality_us_epa_index = some x ∧ x ≤ s.max_aqi) ∧
      (∃ x, r.air_quality_PM2_5 = some x ∧ s.pm2_5_min ≤ x ∧ x ≤ s.pm2_5_max) ∧
      (∃ x, r.air_quality_PM10 = some x ∧ s.pm10_min ≤ x ∧ x ≤ s.pm10_max) := by
  refine ⟨List.filter_sublist df, ?_⟩
  intro r hr
  rw [df_filtered, List.mem_filter] at hr
  obtain ⟨-, hp⟩ := hr
  simp only [Bool.and_eq_true] at hp
  obtain ⟨⟨⟨⟨⟨⟨⟨h1, h2⟩, h3⟩, h4⟩, h5⟩, h6⟩, h7⟩, h8⟩ := hp
  refine ⟨by simpa using h1, by simpa using h2, by simpa using h3, ?_, ?_, ?_⟩
  · cases hx : r.air_quality_us_epa_index with
    | none => simp [optLe, hx] at h4
    | some x =>
      simp only [optLe, hx, decide_eq_true_eq] at h4
      exact ⟨x, rfl, h4⟩
  · cases hx : r.air_quality_PM2_5 with
    | none => simp [optGe, hx] at h5
    | some x =>
      simp only [optGe, hx, decide_eq_true_eq] at h5
      simp only [optLe, hx, decide_eq_true_eq] at h6
      exact ⟨x, rfl, h5, h6⟩
  · cases hx : r.air_quality_PM10 with
    | none => simp [optGe, hx] at h7
    | some x =>
      simp only [optGe, hx, decide_eq_true_eq] at h7
      simp only [optLe, hx, decide_eq_true_eq] at h8
      exact ⟨x, rfl, h7, h8⟩

/-- Witness for df_filtered_sound at a concrete spec, table and row. -/
theorem df_filtered_sound_witness :
    rowDelhi.continent ∈ specAsia.continents ∧
    rowDelhi.country ∈ specAsia.countries ∧
    rowDelhi.location_name ∈ specAsia.locations ∧
    (∃ x, rowDelhi.air_quality_us_epa_index = some x ∧ x ≤ specAsia.max_aqi) ∧
    (∃ x, rowDelhi.air_quality_PM2_5 = some x ∧
      specAsia.pm2_5_min ≤ x ∧ x ≤ specAsia.pm2_5_max) ∧
    (∃ x, rowDelhi.air_quality_PM10 = some x ∧
      specAsia.pm10_min ≤ x ∧ x ≤ specAsia.pm10_max) :=
  (df_filtered_sound specAsia [rowDelhi]).2 rowDelhi (by decide)

/-- countries_in_selected_cont of pages/3_AirQuality_Insights.py line 92 (and
components/filters.py line 35): the distinct country values among rows whose
continent is in the chosen continent set.  sorted() only permutes the options,
so the model keeps dedup order; the claims are about membership. -/
def countries_in_selected_cont (selected_continents : List String) (df : List Row) :
    List String :=
  ((df.filter (fun r => selected_continents.contains r.continent)).map Row.country).dedup

/-- locations_in_selected_countries of pages/3_AirQuality_Insights.py line 104
(and components/filters.py line 47): the distinct location_name values among
rows whose country is in the chosen country set. -/
def locations_in_selected_countries (selected_countries : List String) (df : List Row) :
    List String :=
  ((df.filter (fun r => selected_countries.contains r.country)).map Row.location_name).dedup

/-- Claim C4: the selectable country options are exactly the distinct country
values among rows whose continent is in the chosen continent set, the
selectable locations are exactly the distinct location_name values among rows
whose country is in the chosen country set, and when the continent column is a
function of the country column (as the loader guarantees), every selectable
country maps to a continent inside the chosen set. -/
theorem cascading_options_sound (S C : List String) (df : List Row) :
    (∀ c, c ∈ countries_in_selected_cont S df ↔
      ∃ r ∈ df, r.continent ∈ S ∧ r.country = c) ∧
    (∀ l, l ∈ locations_in_selected_countries C df ↔
      ∃ r ∈ df, r.country ∈ C ∧ r.location_name = l) ∧
    (∀ f : String → String, (∀ r ∈ df, r.continent = f r.country) →
      ∀ c ∈ countries_in_selected_cont S df, f c ∈ S) := by
  have hc : ∀ c, c ∈ countries_in_selected_cont S df ↔
      ∃ r ∈ df, r.continent ∈ S ∧ r.country = c := by
    intro c
    simp [countries_in_selected_cont, List.mem_filter, and_assoc]
  refine ⟨hc, ?_, ?_⟩
  · intro l
    simp [locations_in_selected_countries, List.mem_filter, and_assoc]
  · intro f hf c hcmem
    obtain ⟨r, hr, hrS, hrc⟩ := (hc c).1 hcmem
    rw [← hrc, ← hf r hr]
    exact hrS

/-- Witness for cascading_options_sound: the options of the sample table. -/
theorem cascading_options_sound_witness :
    "India" ∈ countries_in_selected_cont ["Asia"] [rowDelhi] :=
  ((cascading_options_sound ["Asia"] [] [rowDelhi]).1 "India").mpr
    ⟨rowDelhi, by decide, by decide, rfl⟩

/-- The sidebar constraints of pages/5_Reports.py (built by filter_panel):
geographic sets plus inclusive temperature, humidity and wind ranges. -/
structure ReportFilters where
  continents : List String
  countries : List String
  locations : List String
  temp_min : ℚ
  temp_max : ℚ
  humidity_min : ℚ
  humidity_max : ℚ
  wind_min : ℚ
  wind_max : ℚ

/-- filtered_df of pages/5_Reports.py lines 18-40: the geographic filter
followed by the temperature, humidity and wind range filters, applied in
sequence as in the source. -/
def reports_filtered (f : ReportFilters) (df : List Row) : List Row :=
  let d1 := df.filter (fun r =>
    f.continents.contains r.continent &&
    f.countries.contains r.country &&
    f.locations.contains r.location_name)
  let d2 := d1.filter (fun r =>
    optGe r.temperature_celsius f.temp_min && optLe r.temperature_celsius f.temp_max)
  let d3 := d2.filter (fun r =>
    optGe r.humidity f.humidity_min && optLe r.humidity f.humidity_max)
  d3.filter (fun r => optGe r.wind_mph f.wind_min && optLe r.wind_mph f.wind_max)

/-- A non-null lower-bound comparison only passes on a present value. -/
theorem optGe_isSome {v : Option ℚ} {b : ℚ} (h : optGe v b = true) : v.isSome = true := by
  cases v with
  | none => simp [optGe] at h
  | some x => rfl

/-- Claim C7: a row whose value of a range-filtered measure is null is always
excluded by the range filter, whatever bounds are requested (so also when the
requested range equals the full observed range of the measure): every row of
the filtered result has non-null temperature, humidity and wind. -/
theorem reports_filtered_excludes_null (f : ReportFilters) (df : List Row) :
    ∀ r ∈ reports_filtered f df,
      (r.temperature_celsius).isSome = true ∧
      (r.humidity).isSome = true ∧
      (r.wind_mph).isSome = true := by
  intro r hr
  rw [reports_filtered] at hr
  simp only [List.mem_filter, Bool.and_eq_true] at hr
  obtain ⟨⟨⟨-, ht, -⟩, hh, -⟩, hw, -⟩ := hr
  exact ⟨optGe_isSome ht, optGe_isSome hh, optGe_isSome hw⟩

/-- A sample ReportFilters matching rowDelhi. -/
def reportSpec : ReportFilters :=
  { continents := ["Asia"]
    countries := ["India"]
    locations := ["Delhi"]
    temp_min := 0
    temp_max := 50
    humidity_min := 0
    humidity_max := 100
    wind_min := 0
    wind_max := 200 }

/-- Witness for reports_filtered_excludes_null at a concrete table. -/
theorem reports_filtered_excludes_null_witness :
    (rowDelhi.temperature_celsius).isSome = true ∧
    (rowDelhi.humidity).isSome = true ∧
    (rowDelhi.wind_mph).isSome = true :=
  reports_filtered_excludes_null reportSpec [rowDelhi] rowDelhi (by decide)

/-- The sort key used by sort_values(measure, ascending=False): larger values
first and NaN (none) values placed last, as pandas does with the default
na_position of last. -/
def nullsLastGe (x y : Option ℚ) : Bool :=
  match x, y with
  | none, none => true
  | none, some _ => false
  | some _, none => true
  | some a, some b => decide (b ≤ a)

/-- top_hot / top_wind / top_aqi of pages/5_Reports.py lines 68-88,
generalised over the measure and N:
sort_values(measure, ascending=False).head(n). -/
def top_n_desc (m : Row → Option ℚ) (n : ℕ) (df : List Row) : List Row :=
  (List.insertionSort (fun a b => nullsLastGe (m a) (m b) = true) df).take n

/-- top_hot of pages/5_Reports.py line 68. -/
def top_hot (df : List Row) : List Row :=
  top_n_desc (fun r => r.temperature_celsius) 10 df

theorem nullsLastGe_total (x y : Option ℚ) :
    nullsLastGe x y = true ∨ nullsLastGe y x = true := by
  cases x <;> cases y <;> simp [nullsLastGe]
  exact le_total _ _

theorem nullsLastGe_trans (x y z : Option ℚ) :
    nullsLastGe x y = true → nullsLastGe y z = true → nullsLastGe x z = true := by
  cases x <;> cases y <;> cases z <;> simp [nullsLastGe]
  exact fun h1 h2 => le_trans h2 h1

/-- A row with a null temperature measure, for the Top-N counterexample. -/
def rowNullTemp : Row :=
  { rowDelhi with location_name := "Nowhere", temperature_celsius := none }

/-- Counterexample to claim C5: Top-N is not restricted to rows with non-null
measure.  On a table with one non-null and one null temperature, Top-2 by
temperature returns both rows: the null row is included, and the result length
is 2, not min(2, 1) = 1 as the claim requires. -/
theorem top_n_desc_includes_null_rows :
    top_n_desc (fun r => r.temperature_celsius) 2 [rowNullTemp, rowDelhi]
      = [rowDelhi, rowNullTemp] ∧
    rowNullTemp.temperature_celsius = none ∧
    (top_n_desc (fun r => r.temperature_celsius) 2 [rowNullTemp, rowDelhi]).length ≠
      min 2 (([rowNullTemp, rowDelhi].filter
        (fun r => (r.temperature_celsius).isSome)).length) := by
  decide

/-- Claim C5 as amended: Top-N returns the first N rows of the table sorted by
the measure in descending order with null-measure rows placed last; the result
draws only on rows of the input, its measure values are non-increasing under
that order (so null-measure rows come after all non-null ones), and its length
is min(N, total number of rows) - null-measure rows are included whenever
fewer than N rows have a non-null measure. -/
theorem top_n_desc_spec (m : Row → Option ℚ) (n : ℕ) (df : List Row) :
    (top_n_desc m n df).length = min n df.length ∧
    (∀ r ∈ top_n_desc m n df, r ∈ df) ∧
    (top_n_desc m n df).Pairwise (fun a b => nullsLastGe (m a) (m b) = true) := by
  haveI : IsTotal Row (fun a b => nullsLastGe (m a) (m b) = true) :=
    ⟨fun a b => nullsLastGe_total _ _⟩
  haveI : IsTrans Row (fun a b => nullsLastGe (m a) (m b) = true) :=
    ⟨fun a b c => nullsLastGe_trans _ _ _⟩
  refine ⟨?_, ?_, ?_⟩
  · rw [top_n_desc, List.length_take, List.length_insertionSort]
  · intro r hr
    exact (List.mem_insertionSort _).1 (List.take_subset _ _ hr)
  · exact (List.sorted_insertionSort _ df).sublist (List.take_sublist _ _)

/-- Witness for top_n_desc_spec at a concrete measure, N and table. -/
theorem top_n_desc_spec_witness : rowDelhi ∈ [rowNullTemp, rowDelhi] :=
  (top_n_desc_spec (fun r => r.temperature_celsius) 1 [rowNullTemp, rowDelhi]).2.1
    rowDelhi (by decide)

/-- dt.month_name() of pages/2_weather_trend_analysis.py line 57: the English
month name of a month number. -/
def monthName (m : Int) : String :=
  if m = 1 then "January"
  else if m = 2 then "February"
  else if m = 3 then "March"
  else if m = 4 then "April"
  else if m = 5 then "May"
  else if m = 6 then "June"
  else if m = 7 then "July"
  else if m = 8 then "August"
  else if m = 9 then "September"
  else if m = 10 then "October"
  else if m = 11 then "November"
  else if m = 12 then "December"
  else "Invalid"

/-- The Month column of the weather-trend page (a month-name string, NaN when
last_updated failed to parse). -/
def monthNameCol (r : Row) : Option String :=
  r.last_updated.map (fun t => monthName t.month)

/-- pm_trend_filtered of pages/3_AirQuality_Insights.py lines 389-396: each of
the year / month / day filters is applied only when its chosen set is
non-empty (if selected_years: ...). -/
def pm_trend_filtered (selected_years selected_months selected_days : List Int)
    (df : List Row) : List Row :=
  let d1 := if selected_years.isEmpty then df
    else df.filter (fun r => optMemZ selected_years (yearCol r))
  let d2 := if selected_months.isEmpty then d1
    else d1.filter (fun r => optMemZ selected_months (monthCol r))
  if selected_days.isEmpty then d2
  else d2.filter (fun r => optMemZ selected_days (dayCol r))

/-- The sidebar constraints of pages/2_weather_trend_analysis.py: geographic
sets plus the year set (applied unconditionally in the source), the month-name
set and the day set (both applied only when non-empty). -/
structure TrendSpec where
  continents : List String
  countries : List String
  locations : List String
  years : List Int
  months : List String
  days : List Int

/-- df_filtered of pages/2_weather_trend_analysis.py lines 142-149.  Note the
year clause df[Year].isin(selected_years) has no emptiness guard, while the
month and day clauses are guarded by `if selected_months / selected_days`. -/
def trend_df_filtered (s : TrendSpec) (df : List Row) : List Row :=
  df.filter (fun r =>
    s.continents.contains r.continent &&
    s.countries.contains r.country &&
    s.locations.contains r.location_name &&
    optMemZ s.years (yearCol r) &&
    (if s.months.isEmpty then true else optMemS s.months (monthNameCol r)) &&
    (if s.days.isEmpty then true else optMemZ s.days (dayCol r)))

/-- Counterexample to claim C9: an empty year set is not a pass-through in the
weather-trend page.  rowDelhi passes every geographic set and the month and
day sets are empty, yet the filter keeps no rows, because the year clause
isin([]) is applied unconditionally and holds of no row. -/
theorem trend_empty_years_drops_all :
    trend_df_filtered
      { continents := ["Asia"], countries := ["India"], locations := ["Delhi"],
        years := [], months := [], days := [] } [rowDelhi] = [] ∧
    rowDelhi.continent ∈ (["Asia"] : List String) ∧
    rowDelhi.country ∈ (["India"] : List String) ∧
    rowDelhi.location_name ∈ (["Delhi"] : List String) := by
  decide

/-- Claim C9 as amended: in the air-quality PM-trend filter every date
component behaves as claimed (an empty chosen set is a pass-through, a
non-empty one keeps exactly the rows whose component of last_updated is in the
set, a null last_updated passing no non-empty set); in the weather-trend page
the month and day components behave that way, but the year component is
applied unconditionally, so an empty year set keeps no rows rather than
passing all. -/
theorem date_component_filter_semantics
    (ys ms ds : List Int) (df : List Row) (s : TrendSpec) (r : Row) :
    (r ∈ pm_trend_filtered ys ms ds df ↔
      r ∈ df ∧
      (ys = [] ∨ optMemZ ys (yearCol r) = true) ∧
      (ms = [] ∨ optMemZ ms (monthCol r) = true) ∧
      (ds = [] ∨ optMemZ ds (dayCol r) = true)) ∧
    (r ∈ trend_df_filtered s df ↔
      r ∈ df ∧
      r.continent ∈ s.continents ∧
      r.country ∈ s.countries ∧
      r.location_name ∈ s.locations ∧
      optMemZ s.years (yearCol r) = true ∧
      (s.months = [] ∨ optMemS s.months (monthNameCol r) = true) ∧
      (s.days = [] ∨ optMemZ s.days (dayCol r) = true)) := by
  constructor
  · by_cases hY : ys = [] <;> by_cases hM : ms = [] <;> by_cases hD : ds = [] <;>
      simp [pm_trend_filtered, List.mem_filter, List.isEmpty_iff, hY, hM, hD,
        and_assoc] <;> tauto
  · by_cases hM : s.months = [] <;> by_cases hD : s.days = [] <;>
      simp [trend_df_filtered, List.mem_filter, List.isEmpty_iff, hM, hD,
        and_assoc]

/-- Witness for date_component_filter_semantics: with all three component sets
empty, the PM-trend filter keeps the sample row. -/
theorem date_component_filter_semantics_witness :
    rowDelhi ∈ pm_trend_filtered [] [] [] [rowDelhi] :=
  ((date_component_filter_semantics [] [] [] [rowDelhi]
      { continents := [], countries := [], locations := [],
        years := [], months := [], days := [] } rowDelhi).1).mpr
    ⟨by decide, Or.inl rfl, Or.inl rfl, Or.inl rfl⟩

/-- The continent-code dictionary of components/filters.py lines 8-11 (a
lookup that raises KeyError, hence Option, on an unknown code). -/
def continent_code_to_name (code : String) : Option String :=
  if code = "AF" then some "Africa"
  else if code = "AS" then some "Asia"
  else if code = "EU" then some "Europe"
  else if code = "NA" then some "North America"
  else if code = "OC" then some "Oceania"
  else if code = "SA" then some "South America"
  else if code = "AN" then some "Antarctica"
  else none

/-- country_to_continent of components/filters.py lines 4-13, with the two
pycountry_convert lookups abstracted (none models a raised exception, which
the bare except catches, returning "Unknown"). -/
def country_to_continent (c2a a2cc : String → Option String)
    (country_name : String) : String :=
  match c2a country_name with
  | none => "Unknown"
  | some a2 =>
    match a2cc a2 with
    | none => "Unknown"
    | some code => (continent_code_to_name code).getD "Unknown"

/-- get_continent_from_country of app.py lines 56-63: it converts the
continent code with pycountry_convert (abstracted as cc2name) and its except
branch returns the string "Other", not "Unknown". -/
def get_continent_from_country (c2a a2cc cc2name : String → Option String)
    (country_name : String) : String :=
  match c2a country_name with
  | none => "Other"
  | some a2 =>
    match a2cc a2 with
    | none => "Other"
    | some code =>
      match cc2name code with
      | none => "Other"
      | some n => n

/-- The output set of the continent resolver named by the spec. -/
def continent_enum : List String :=
  ["Africa", "Asia", "Europe", "North America", "Oceania",
   "South America", "Antarctica", "Unknown"]

/-- Whatever code the abstract lookups produce, the dictionary fallback lands
inside the fixed continent enum. -/
theorem continent_code_to_name_total (code : String) :
    (continent_code_to_name code).getD "Unknown" ∈ continent_enum := by
  rw [continent_code_to_name, continent_enum]
  split_ifs <;> simp

/-- Counterexample to claim C3: the resolver of app.py maps an unmappable
country to "Other", which is neither "Unknown" nor a member of the fixed
continent set. -/
theorem get_continent_from_country_returns_Other :
    get_continent_from_country (fun _ => none) (fun _ => none) (fun _ => none)
      "Atlantis" = "Other" ∧
    ("Other" : String) ∉ continent_enum := by
  decide

/-- Claim C3 as amended: the resolver of components/filters.py is total and
lands in the fixed continent set with "Unknown" for every unmapped country
(whichever lookup stage fails), while the distinct resolver of app.py returns
"Other", not "Unknown", for an unmapped country. -/
theorem country_to_continent_total (c2a a2cc : String → Option String)
    (c : String) :
    country_to_continent c2a a2cc c ∈ continent_enum ∧
    (c2a c = none → country_to_continent c2a a2cc c = "Unknown") ∧
    (∀ a2, c2a c = some a2 → a2cc a2 = none →
      country_to_continent c2a a2cc c = "Unknown") ∧
    (∀ cc2name, c2a c = none →
      get_continent_from_country c2a a2cc cc2name c = "Other") := by
  refine ⟨?_, ?_, ?_, ?_⟩
  · cases h1 : c2a c with
    | none => simp [country_to_continent, h1, continent_enum]
    | some a2 =>
      cases h2 : a2cc a2 with
      | none => simp [country_to_continent, h1, h2, continent_enum]
      | some code =>
        simp only [country_to_continent, h1, h2]
        exact continent_code_to_name_total code
  · intro h1
    simp [country_to_continent, h1]
  · intro a2 h1 h2
    simp [country_to_continent, h1, h2]
  · intro cc2name h1
    simp [get_continent_from_country, h1]

/-- Witness for country_to_continent_total at concrete empty lookups. -/
theorem country_to_continent_total_witness :
    country_to_continent (fun _ => none) (fun _ => none) "Atlantis" = "Unknown" :=
  (country_to_continent_total (fun _ => none) (fun _ => none) "Atlantis").2.1 rfl

/-- The loaded table as filter_panel sees it: a country column, and a
continent column that is present (some) or absent (none), since
components/utils.load_data does not create one. -/
structure LoadedTable where
  country : List String
  continent : Option (List String)
deriving DecidableEq, Repr

/-- Lines 18-20 of components/filters.py: filter_panel writes a derived
continent column into the input table when the column is missing
(df[continent] = df[country].apply(country_to_continent)); state passed
explicitly, so the function returns the updated table. -/
def add_continent_if_missing (c2a a2cc : String → Option String)
    (df : LoadedTable) : LoadedTable :=
  match df.continent with
  | some _ => df
  | none => { df with continent := some (df.country.map (country_to_continent c2a a2cc)) }

/-- A loaded table without a continent column. -/
def tableNoContinent : LoadedTable := { country := ["Atlantis"], continent := none }

/-- Counterexample to claim C8: invoking the filter panel on a loaded table
without a continent column mutates the table, adding the derived column in
place, so the table afterwards differs from the loaded one. -/
theorem filter_panel_mutates_input :
    add_continent_if_missing (fun _ => none) (fun _ => none) tableNoContinent
      ≠ tableNoContinent ∧
    add_continent_if_missing (fun _ => none) (fun _ => none) tableNoContinent
      = { country := ["Atlantis"], continent := some ["Unknown"] } := by
  decide

/-- Claim C8 as amended: filter_panel leaves the loaded table unchanged
whenever the table already carries a continent column, and in every case it
rewrites no existing column (the country column is preserved); only when the
continent column is absent does it mutate the table, by adding that one
derived column. -/
theorem filter_panel_preserves_table_with_continent
    (c2a a2cc : String → Option String) (df : LoadedTable) (cs : List String)
    (h : df.continent = some cs) :
    add_continent_if_missing c2a a2cc df = df ∧
    ∀ t : LoadedTable, (add_continent_if_missing c2a a2cc t).country = t.country := by
  constructor
  · simp [add_continent_if_missing, h]
  · intro t
    cases ht : t.continent <;> simp [add_continent_if_missing, ht]

/-- Witness for filter_panel_preserves_table_with_continent. -/
theorem filter_panel_preserves_witness :
    add_continent_if_missing (fun _ => none) (fun _ => none)
      { country := ["India"], continent := some ["Asia"] }
      = { country := ["India"], continent := some ["Asia"] } :=
  (filter_panel_preserves_table_with_continent (fun _ => none) (fun _ => none)
    { country := ["India"], continent := some ["Asia"] } ["Asia"] rfl).1

/-- A raw CSV table as read by pandas: columns by name, each a list of cells,
a cell being none when empty. -/
abbrev Csv := List (String × List (Option String))

/-- The required_cols list of components/utils.py lines 14-15. -/
def required_cols : List String :=
  ["country", "location_name", "latitude", "longitude",
   "temperature_celsius", "humidity", "wind_mph"]

/-- Column presence: col in df.columns. -/
def hasCol (df : Csv) (c : String) : Bool := df.any (fun p => p.1 == c)

/-- The row count of the table (pandas assigns a full null column). -/
def nrows (df : Csv) : Nat :=
  match df with
  | [] => 0
  | p :: _ => p.2.length

/-- The loop of components/utils.py lines 16-18: for each column of
required_cols absent from the table, df[col] = None appends an all-null
column. -/
def ensure_required (df : Csv) : Csv :=
  df ++ (required_cols.filter (fun c => !hasCol df c)).map
    (fun c => (c, List.replicate (nrows df) none))

/-- load_data of components/utils.py lines 5-20: an unreadable source makes
pd.read_csv raise (modelled as the error case); a readable one is returned
with the required columns ensured.  No column check ever raises. -/
def load_data (source : Option Csv) : Except String Csv :=
  match source with
  | none => Except.error "DataLoadError"
  | some df => Except.ok (ensure_required df)

/-- A readable CSV missing the required country column (and most others). -/
def csv_missing_country : Csv := [("humidity", [some "50"])]

/-- Counterexample to claim C2: loading a source that lacks the required
country column does not fail; load_data succeeds and silently synthesizes the
missing required columns as all-null columns. -/
theorem load_data_accepts_missing_required :
    load_data (some csv_missing_country)
      = Except.ok (ensure_required csv_missing_country) ∧
    hasCol csv_missing_country "country" = false ∧
    ensure_required csv_missing_country
      = csv_missing_country ++
          [("country", [none]), ("location_name", [none]), ("latitude", [none]),
           ("longitude", [none]), ("temperature_celsius", [none]),
           ("wind_mph", [none])] := by
  exact ⟨rfl, by decide, by decide⟩

/-- Claim C2 as amended: load_data fails exactly when the source is unreadable;
on a readable source it always succeeds, every column of the required set is
present in the result, the source's own columns are kept, each required column
that was absent is synthesized as an all-null column, and no column outside
the required set is ever synthesized. -/
theorem load_data_spec :
    load_data none = Except.error "DataLoadError" ∧
    (∀ df : Csv, load_data (some df) = Except.ok (ensure_required df)) ∧
    (∀ df : Csv, ∀ c ∈ required_cols, hasCol (ensure_required df) c = true) ∧
    (∀ df : Csv, ∀ p ∈ df, p ∈ ensure_required df) ∧
    (∀ df : Csv, ∀ p ∈ ensure_required df,
      p ∈ df ∨ (p.1 ∈ required_cols ∧ hasCol df p.1 = false ∧
        p.2 = List.replicate (nrows df) none)) ∧
    (∀ df : Csv, ∀ c, hasCol df c = false → c ∉ required_cols →
      hasCol (ensure_required df) c = false) := by
  refine ⟨rfl, fun df => rfl, ?_, ?_, ?_, ?_⟩
  · intro df c hc
    simp only [ensure_required, hasCol, List.any_append, Bool.or_eq_true]
    by_cases h : df.any (fun p => p.1 == c) = true
    · exact Or.inl h
    · right
      rw [List.any_eq_true]
      refine ⟨(c, List.replicate (nrows df) none), ?_, by simp⟩
      refine List.mem_map.mpr ⟨c, List.mem_filter.mpr ⟨hc, ?_⟩, rfl⟩
      simp only [Bool.not_eq_true', hasCol]
      exact Bool.eq_false_iff.mpr h
  · intro df p hp
    rw [ensure_required]
    exact List.mem_append_left _ hp
  · intro df p hp
    rw [ensure_required] at hp
    rcases List.mem_append.mp hp with h | h
    · exact Or.inl h
    · right
      obtain ⟨c0, hc0, rfl⟩ := List.mem_map.mp h
      obtain ⟨hreq, habs⟩ := List.mem_filter.mp hc0
      exact ⟨hreq, by simpa using habs, rfl⟩
  · intro df c h hnot
    simp only [ensure_required, hasCol, List.any_append, Bool.or_eq_false_iff]
    refine ⟨h, ?_⟩
    rw [List.any_eq_false]
    intro x hx
    obtain ⟨c0, hc0, rfl⟩ := List.mem_map.mp hx
    simp only [beq_iff_eq]
    intro heq
    exact hnot (heq ▸ (List.mem_filter.mp hc0).1)

/-- Witness for load_data_spec: the missing country column is present after
ensure_required on the sample CSV. -/
theorem load_data_spec_witness :
    hasCol (ensure_required csv_missing_country) "country" = true :=
  load_data_spec.2.2.1 csv_missing_country "country" (by decide)

/-- One NAQI threshold band of pages/3_AirQuality_Insights.py lines 230-235;
an upper bound of none models the Python float inf of the Severe band. -/
structure NaqiBand where
  category : String
  pm25_min : ℚ
  pm25_max : Option ℚ
  pm10_min : ℚ
  pm10_max : Option ℚ
  color : String
deriving DecidableEq, Repr

def band_good : NaqiBand := ⟨"Good", 0, some 30, 0, some 50, "#2ecc71"⟩

def band_satisfactory : NaqiBand :=
  ⟨"Satisfactory", 31, some 60, 51, some 100, "#f1c40f"⟩

def band_moderate : NaqiBand :=
  ⟨"Moderately Polluted", 61, some 90, 101, some 250, "#e67e22"⟩

def band_poor : NaqiBand := ⟨"Poor", 91, some 120, 251, some 350, "#e74c3c"⟩

def band_very_poor : NaqiBand :=
  ⟨"Very Poor", 121, some 250, 351, some 430, "#8e44ad"⟩

def band_severe : NaqiBand := ⟨"Severe", 251, none, 431, none, "#7f0000"⟩

/-- naqi_ranges of pages/3_AirQuality_Insights.py lines 229-236, in source
order of increasing severity. -/
def naqi_ranges : List NaqiBand :=
  [band_good, band_satisfactory, band_moderate, band_poor, band_very_poor,
   band_severe]

/-- The band test lo <= v <= hi with hi = none for an infinite upper edge. -/
def in_pm_band (lo : ℚ) (hi : Option ℚ) (v : ℚ) : Bool :=
  decide (lo ≤ v) &&
  (match hi with
   | none => true
   | some h => decide (v ≤ h))

/-- The per-band condition of line 241: PM2.5 in the band's PM2.5 interval OR
PM10 in the band's PM10 interval. -/
def band_matches (pm25 pm10 : ℚ) (r : NaqiBand) : Bool :=
  in_pm_band r.pm25_min r.pm25_max pm25 || in_pm_band r.pm10_min r.pm10_max pm10

/-- get_aqi_category of pages/3_AirQuality_Insights.py lines 239-243: the
first band (in list order) whose condition holds gives the category and
color; if no band holds the function falls through to ("Unknown", grey). -/
def get_aqi_category (pm25 pm10 : ℚ) : String × String :=
  match naqi_ranges.find? (band_matches pm25 pm10) with
  | some r => (r.category, r.color)
  | none => ("Unknown", "#95a5a6")

/-- find? returns the head of the first satisfying suffix. -/
theorem find?_of_first {α : Type} (p : α → Bool) (pre : List α) (a : α)
    (l : List α) (hpre : ∀ x ∈ pre, p x = false) (ha : p a = true) :
    (pre ++ a :: l).find? p = some a := by
  induction pre with
  | nil => simpa using List.find?_cons_of_pos l ha
  | cons b t ih =>
    have hb : p b = false := hpre b (List.mem_cons_self _ _)
    rw [List.cons_append, List.find?_cons_of_neg _ (by simp [hb])]
    exact ih (fun x hx => hpre x (List.mem_cons_of_mem _ hx))

/-- Claim C10: the category of a location is a joint function of its PM2.5
and PM10: the bands are scanned in source (increasing-severity) order and the
first whose PM2.5 interval contains the PM2.5 value OR whose PM10 interval
contains the PM10 value is returned; when no band holds - e.g. the fractional
gap values PM2.5 = 30.5 with PM10 = 50.5 - the result is "Unknown"; and in
particular any location whose PM10 lies in the Good band is classified
"Good" whatever its PM2.5. -/
theorem get_aqi_category_first_match :
    (∀ pm25 pm10 : ℚ, ∀ pre post : List NaqiBand, ∀ b : NaqiBand,
      naqi_ranges = pre ++ b :: post →
      (∀ x ∈ pre, band_matches pm25 pm10 x = false) →
      band_matches pm25 pm10 b = true →
      get_aqi_category pm25 pm10 = (b.category, b.color)) ∧
    (∀ pm25 pm10 : ℚ, 0 ≤ pm10 → pm10 ≤ 50 →
      (get_aqi_category pm25 pm10).1 = "Good") ∧
    ((get_aqi_category (61 / 2 : ℚ) (101 / 2 : ℚ)).1 = "Unknown") ∧
    (∀ pm25 pm10 : ℚ, (∀ b ∈ naqi_ranges, band_matches pm25 pm10 b = false) →
      get_aqi_category pm25 pm10 = ("Unknown", "#95a5a6")) := by
  have hgen : ∀ pm25 pm10 : ℚ,
      (∀ b ∈ naqi_ranges, band_matches pm25 pm10 b = false) →
      get_aqi_category pm25 pm10 = ("Unknown", "#95a5a6") := by
    intro pm25 pm10 h
    have hf : naqi_ranges.find? (band_matches pm25 pm10) = none := by
      rw [List.find?_eq_none]
      intro x hx
      simp [h x hx]
    simp [get_aqi_category, hf]
  refine ⟨?_, ?_, ?_, hgen⟩
  · intro pm25 pm10 pre post b hsplit hpre hb
    have hf : naqi_ranges.find? (band_matches pm25 pm10) = some b := by
      rw [hsplit]
      exact find?_of_first _ _ _ _ hpre hb
    simp [get_aqi_category, hf]
  · intro pm25 pm10 h0 h50
    have hb : band_matches pm25 pm10 band_good = true := by
      simp [band_matches, in_pm_band, band_good, h0, h50]
    have hf : naqi_ranges.find? (band_matches pm25 pm10) = some band_good := by
      simp only [naqi_ranges]
      exact List.find?_cons_of_pos _ hb
    simp [get_aqi_category, hf, band_good]
  · have hall : ∀ b ∈ naqi_ranges,
        band_matches (61 / 2 : ℚ) (101 / 2 : ℚ) b = false := by
      intro b hb
      simp only [naqi_ranges, List.mem_cons, List.not_mem_nil, or_false] at hb
      rcases hb with rfl | rfl | rfl | rfl | rfl | rfl <;>
        norm_num [band_matches, in_pm_band, band_good, band_satisfactory,
          band_moderate, band_poor, band_very_poor, band_severe]
    rw [hgen _ _ hall]

/-- Witness for get_aqi_category_first_match: a severe PM2.5 of 300 with a
PM10 of 10 still classifies as "Good". -/
theorem get_aqi_category_first_match_witness :
    (get_aqi_category 300 10).1 = "Good" :=
  get_aqi_category_first_match.2.1 300 10 (by norm_num) (by norm_num)

/-- Counterexample to claim C6: a PM2.5 value of 31 does not always classify
as "Satisfactory": with PM10 = 0 the Good band already matches through its
PM10 interval, so the pair classifies as "Good". -/
theorem pm25_31_classified_Good :
    (get_aqi_category 31 0).1 = "Good" ∧
    (get_aqi_category 31 0).1 ≠ "Satisfactory" := by
  decide

/-- Claim C6 as amended: a PM2.5 of exactly 30 classifies as "Good" (inclusive
upper boundary) for every PM10; a PM2.5 of 31 classifies as "Satisfactory"
provided PM10 lies outside the Good band's PM10 interval [0, 50]; the Severe
band's upper edge is unbounded, so no PM2.5 of at least 251 is left
unclassified; and a value in no band - negative values, but also fractional
values in the gaps between bands - maps to "Unknown". -/
theorem get_aqi_category_boundary :
    (∀ pm10 : ℚ, (get_aqi_category 30 pm10).1 = "Good") ∧
    (∀ pm10 : ℚ, pm10 < 0 ∨ 50 < pm10 →
      (get_aqi_category 31 pm10).1 = "Satisfactory") ∧
    (∀ pm25 pm10 : ℚ, 251 ≤ pm25 → (get_aqi_category pm25 pm10).1 ≠ "Unknown") ∧
    (get_aqi_category (-1) (-1)).1 = "Unknown" := by
  refine ⟨?_, ?_, ?_, by decide⟩
  · intro pm10
    have hb : band_matches 30 pm10 band_good = true := by
      norm_num [band_matches, in_pm_band, band_good]
    have hf : naqi_ranges.find? (band_matches 30 pm10) = some band_good := by
      simp only [naqi_ranges]
      exact List.find?_cons_of_pos _ hb
    simp [get_aqi_category, hf, band_good]
  · intro pm10 h
    have h1 : in_pm_band 0 (some 50) pm10 = false := by
      rcases h with h | h
      · simp [in_pm_band, h.not_le]
      · simp [in_pm_band, h.not_le]
    have h2 : in_pm_band 0 (some 30) (31 : ℚ) = false := by
      norm_num [in_pm_band]
    have hb1 : band_matches 31 pm10 band_good = false := by
      simp [band_matches, band_good, h2, h1]
    have hb2 : band_matches 31 pm10 band_satisfactory = true := by
      norm_num [band_matches, in_pm_band, band_satisfactory]
    have hf : naqi_ranges.find? (band_matches 31 pm10) = some band_satisfactory := by
      simp only [naqi_ranges]
      rw [List.find?_cons_of_neg _ (by simp [hb1]), List.find?_cons_of_pos _ hb2]
    simp [get_aqi_category, hf, band_satisfactory]
  · intro pm25 pm10 h
    cases hf : naqi_ranges.find? (band_matches pm25 pm10) with
    | none =>
      exfalso
      have hmem : band_severe ∈ naqi_ranges := by simp [naqi_ranges]
      have hnone := List.find?_eq_none.1 hf band_severe hmem
      apply hnone
      simp [band_matches, in_pm_band, band_severe, h]
    | some r =>
      have hr : r ∈ naqi_ranges := List.mem_of_find?_eq_some hf
      have hcat : r.category ≠ "Unknown" := by
        simp only [naqi_ranges, List.mem_cons, List.not_mem_nil, or_false] at hr
        rcases hr with rfl | rfl | rfl | rfl | rfl | rfl <;> decide
      simpa [get_aqi_category, hf] using hcat

/-- Witness for get_aqi_category_boundary: with PM10 = 60 outside the Good
band, PM2.5 = 31 classifies as "Satisfactory". -/
theorem get_aqi_category_boundary_witness :
    (get_aqi_category 31 60).1 = "Satisfactory" :=
  get_aqi_category_boundary.2.1 60 (Or.inr (by norm_num))

end Climatescope
